import Mathlib

/-!
Verification development for the LLSeller reconnaissance pipeline.

Shallow embedding of the pure decision logic of the repository:
- sales/engine/serp_resolver.py  (candidate scoring and validation)
- sales/engine/tor_controller.py (lease mutex, circuit breaker, identity rotation)
- sales/engine/discovery_engine.py (racing source resolver)
- sales/engine/recon_engine.py   (stealth extraction engine, deep-link crawl)

Conventions of the embedding:
- Python byte-for-byte network and browser I/O is replaced by explicit
  parameters (liveness oracles, fetched responses, attempt outcomes).
- Python float scores in serp_resolver are sums of the integer constants
  70, 40, 35, 30, 20, 10, 25, 80, 1000; all such sums are exactly
  representable in IEEE doubles, so Int models the arithmetic exactly and
  the comparison against the threshold 45.0 is the Int comparison with 45.
- Python strings are Lean String values; helpers below mirror the exact
  str and urllib operations the source uses, written with structural
  recursion so that concrete instances evaluate inside the kernel.
-/

set_option maxRecDepth 16384

namespace LLSeller

/-! ### String helpers mirroring Python str / urllib.parse operations -/

/-- Python str.lower for the ASCII range (URLs and config tokens in the
source are ASCII; accented characters are handled by the accent fold of
normalize_string below). -/
def lowerStr (s : String) : String := ⟨s.data.map Char.toLower⟩

/-- Worker for the substring test: does needle occur in hay? -/
def infixOfAux (needle : List Char) : List Char → Bool
  | [] => needle.isEmpty
  | c :: rest => needle.isPrefixOf (c :: rest) || infixOfAux needle rest

/-- Python `needle in hay` substring test. -/
def strContains (hay needle : String) : Bool := infixOfAux needle.data hay.data

/-- Python str.endswith. -/
def sEndsWith (s suffixStr : String) : Bool := suffixStr.data.isSuffixOf s.data

/-- Python str.startswith. -/
def sStartsWith (s prefixStr : String) : Bool := prefixStr.data.isPrefixOf s.data

/-- Python str.strip (whitespace at both ends). -/
def pyStrip (s : String) : String :=
  ⟨((s.data.dropWhile Char.isWhitespace).reverse.dropWhile Char.isWhitespace).reverse⟩

/-- Python str.rstrip for one character. -/
def rstripChar (s : String) (c : Char) : String :=
  ⟨(s.data.reverse.dropWhile (· = c)).reverse⟩

/-- Fuel-bounded worker for removeAll; fuel is the length of the text, so
the recursion is structural and kernel-evaluable. -/
def removeAllAux (pat : List Char) : Nat → List Char → List Char
  | _, [] => []
  | 0, l => l
  | fuel + 1, c :: rest =>
    if pat ≠ [] ∧ pat.isPrefixOf (c :: rest) then
      removeAllAux pat fuel ((c :: rest).drop pat.length)
    else
      c :: removeAllAux pat fuel rest

/-- Python str.replace(pat, "") — removes every occurrence of a non-empty
pattern, scanning left to right (the source only removes "www."). -/
def removeAll (s pat : String) : String :=
  ⟨removeAllAux pat.data s.data.length s.data⟩

/-- Python `s.split(sep)[0]`: the prefix before the first occurrence of a
single-character separator. -/
def takeUntilChar (s : String) (c : Char) : String :=
  ⟨s.data.takeWhile (· ≠ c)⟩

/-- Worker splitting a character list at whitespace characters. -/
def splitWsAux : List Char → List Char → List (List Char)
  | acc, [] => [acc.reverse]
  | acc, c :: rest =>
    if c.isWhitespace then acc.reverse :: splitWsAux [] rest
    else splitWsAux (c :: acc) rest

/-- Python re.split over whitespace. A run of whitespace yields empty
fragments here where the regex yields one split; the only consumer
filters tokens by length > 3, so the empty fragments are inert. -/
def splitWs (s : String) : List String := (splitWsAux [] s.data).map (⟨·⟩)

/-- Result of urllib.parse.urlparse restricted to the fields the source
reads (scheme, netloc, path). -/
structure UrlParts where
  scheme : String
  netloc : String
  path : String
deriving DecidableEq, Repr

/-- Find the first occurrence of "://" and split around it. -/
def splitScheme : List Char → Option (List Char × List Char)
  | [] => none
  | c :: rest =>
    if [':', '/', '/'].isPrefixOf (c :: rest) then some ([], rest.drop 2)
    else
      match splitScheme rest with
      | some (a, b) => some (c :: a, b)
      | none => none

/-- urllib.parse.urlparse for the http(s) URLs the source handles: with a
"://" separator the scheme, netloc (up to the first of '/', '?', '#') and
path (up to '?' or '#') are extracted; without one, netloc is empty and
the whole string is the path, as urlparse does for scheme-less input. -/
def urlparse (url : String) : UrlParts :=
  match splitScheme url.data with
  | some (schemeChars, restChars) =>
    let netlocChars := restChars.takeWhile (fun c => c ≠ '/' && c ≠ '?' && c ≠ '#')
    let afterNetloc := restChars.drop netlocChars.length
    let pathChars := afterNetloc.takeWhile (fun c => c ≠ '?' && c ≠ '#')
    ⟨⟨schemeChars⟩, ⟨netlocChars⟩, ⟨pathChars⟩⟩
  | none => ⟨"", "", url⟩

/-! ### serp_resolver.py — SERPResolverEngine -/

/-- DOMAIN_BLACKLIST of SERPResolverEngine. -/
def DOMAIN_BLACKLIST : List String := [
  "facebook", "instagram", "linkedin", "twitter", "x.com", "youtube", "tiktok",
  "wikipedia", "paginasamarillas", "infoisinfo", "tripadvisor", "foursquare", "yelp",
  "scholastico", "micolegio", "buscacolegios", "guia-colegios", "educacionbogota",
  "mineducacion", "civico", "empresite", "cylex", "educaweb", "scholaro",
  "top100colegios", "micole", "colegioscolombia", "pymes", "concepto.de",
  "significados", "baby-kingdom", "plan.org", "definicion", "wiktionary",
  "orientacionandujar", "scribd", "issuu", "pinterest", "google", "mapcarta",
  "zhihu", "spanishdict", "cybo", "jardineriaon", "valottery", "forum",
  "wordreference", "brainly", "prezi", "coursehero", "studocu", "docsity",
  "computrabajo", "elempleo", "glassdoor", "indeed", "mercadolibre"]

/-- PATH_PENALTY of SERPResolverEngine. -/
def PATH_PENALTY : List String := [
  "blog", "portal", "moodle", "vle", "canvas", "login", "wp-content",
  "uploads", "document", "pdf", "wiki", "translate", "question", "foro",
  "article", "news", "noticias"]

/-- Binary extensions rejected by _is_valid_candidate. -/
def BINARY_EXT_SUFFIXES : List String :=
  [".pdf", ".doc", ".docx", ".xls", ".jpg", ".png", ".zip", ".rar", ".txt"]

/-- Stop words ignored by the token matcher of _calculate_url_relevance. -/
def IGNORE_WORDS : List String := [
  "colegio", "institucion", "educativa", "escuela", "liceo", "gimnasio",
  "fundacion", "de", "la", "el", "los", "las", "san", "santa"]

/-- Accent fold performed by unicodedata.normalize(NFKD) followed by the
ASCII-ignore encode in _normalize_string: accented Latin letters lose
their diacritic; every other non-ASCII character is dropped later by the
[^a-z0-9] filter, exactly as in the source. -/
def foldAccent (c : Char) : Char :=
  match c with
  | 'á' => 'a' | 'à' => 'a' | 'â' => 'a' | 'ä' => 'a' | 'ã' => 'a'
  | 'Á' => 'A' | 'À' => 'A' | 'Â' => 'A' | 'Ä' => 'A' | 'Ã' => 'A'
  | 'é' => 'e' | 'è' => 'e' | 'ê' => 'e' | 'ë' => 'e'
  | 'É' => 'E' | 'È' => 'E' | 'Ê' => 'E' | 'Ë' => 'E'
  | 'í' => 'i' | 'ì' => 'i' | 'î' => 'i' | 'ï' => 'i'
  | 'Í' => 'I' | 'Ì' => 'I' | 'Î' => 'I' | 'Ï' => 'I'
  | 'ó' => 'o' | 'ò' => 'o' | 'ô' => 'o' | 'ö' => 'o' | 'õ' => 'o'
  | 'Ó' => 'O' | 'Ò' => 'O' | 'Ô' => 'O' | 'Ö' => 'O' | 'Õ' => 'O'
  | 'ú' => 'u' | 'ù' => 'u' | 'û' => 'u' | 'ü' => 'u'
  | 'Ú' => 'U' | 'Ù' => 'U' | 'Û' => 'U' | 'Ü' => 'U'
  | 'ñ' => 'n' | 'Ñ' => 'N' | 'ç' => 'c' | 'Ç' => 'C'
  | other => other

/-- _normalize_string: NFKD accent strip, lowercase, keep only [a-z0-9]. -/
def normalize_string (text : String) : String :=
  ⟨((text.data.map foldAccent).map Char.toLower).filter
    (fun c => ('a' ≤ c && c ≤ 'z') || ('0' ≤ c && c ≤ '9'))⟩

/-- _clean_url: lowercase, strip, drop query and fragment, remove "www.",
drop the trailing slash, reassemble scheme://netloc+path. -/
def clean_url (url : String) : String :=
  let u := takeUntilChar (takeUntilChar (pyStrip (lowerStr url)) '?') '#'
  let parsed := urlparse u
  let netloc := removeAll parsed.netloc "www."
  let path := rstripChar parsed.path '/'
  parsed.scheme ++ "://" ++ netloc ++ path

/-- _calculate_url_relevance: the zero-trust scoring model. All float
constants of the source are integers, so the score is computed in Int;
the acceptance threshold 45.0 becomes 45. -/
def calculate_url_relevance (url instName city : String) : Int :=
  let parsed := urlparse (lowerStr url)
  let domain := removeAll parsed.netloc "www."
  let path := parsed.path
  let tldScore : Int :=
    if sEndsWith domain ".edu.co" then 70
    else if sEndsWith domain ".edu" then 40
    else if sEndsWith domain ".com.co" then 30
    else if sEndsWith domain ".co" then 20
    else if sEndsWith domain ".org" || sEndsWith domain ".net" then 10
    else 0
  let rawTokens := (splitWs instName).map normalize_string
  let vitalTokens := rawTokens.filter (fun t => 3 < t.length && !(IGNORE_WORDS.contains t))
  let cleanCity := normalize_string city
  let domainNormalized := normalize_string (takeUntilChar domain '.')
  let tokensFound := (vitalTokens.filter (fun t => strContains domainNormalized t)).length
  let score := tldScore + 35 * (tokensFound : Int)
  let score := if cleanCity ≠ "" && 3 < cleanCity.length && strContains domainNormalized cleanCity
    then score + 20 else score
  let score := if path ≠ "" && path ≠ "/" then
      (if PATH_PENALTY.any (fun p => strContains path p) then score - 25 - 80 else score - 25)
    else score
  if tokensFound = 0 && !(sEndsWith domain ".edu.co") then score - 1000 else score

/-- _is_valid_candidate: blacklist, binary-extension and length filter. -/
def is_valid_candidate (url : String) : Bool :=
  if lowerStr (urlparse url).netloc = "" then false
  else if DOMAIN_BLACKLIST.any (fun bad => strContains (lowerStr (urlparse url).netloc) bad) then false
  else if BINARY_EXT_SUFFIXES.any (fun ext => sEndsWith (lowerStr (urlparse url).path) ext) then false
  else decide (url.length ≤ 120)

/-- The candidate list built inside _resolve_node: raw URLs surviving
_is_valid_candidate, paired with their relevance score and sorted by
descending score (Python list.sort is stable; insertionSort with the
matching total preorder yields the identical ordering). -/
def resolve_candidates (raws : List String) (instName city : String) : List (String × Int) :=
  ((raws.filter is_valid_candidate).map
    (fun u => (u, calculate_url_relevance u instName city))).insertionSort
    (fun a b => b.2 ≤ a.2)

/-- The selection loop of _resolve_node over the sorted candidates: skip
scores below 45, skip URLs already claimed in the batch, probe liveness
in order, return the first live winner. -/
def resolve_go (liveness : String → Bool) (seen : List String) :
    List (String × Int) → Option String
  | [] => none
  | (url, score) :: rest =>
    if score < 45 then resolve_go liveness seen rest
    else
      let cu := clean_url url
      if seen.contains cu then resolve_go liveness seen rest
      else if liveness cu then some cu
      else resolve_go liveness seen rest

/-- _resolve_node, with the search-provider results (raw URLs), the
institution name and city, the liveness probe of _verify_url_live and the
seen_in_batch set supplied as parameters. -/
def resolve_node (raws : List String) (instName city : String)
    (liveness : String → Bool) (seen : List String) : Option String :=
  resolve_go liveness seen (resolve_candidates raws instName city)

/-! ### tor_controller.py — coordination layer over Redis

The Redis store is modelled explicitly: a key with expiry is an Option
holding the value and its absolute expiry instant; a read at instant
`now` sees the value only while `now` is before the expiry, exactly the
visibility Redis gives a key with a TTL. Times are Nat instants. -/

/-- State of the rotation mutex key: the stored token and its expiry. -/
abbrev LockState : Type := Option (String × Nat)

/-- What `redis.call("get", key)` returns at instant now. -/
def lock_live (s : LockState) (now : Nat) : Option String :=
  match s with
  | some (t, e) => if now < e then some t else none
  | none => none

/-- LUA_ACQUIRE_LOCK: if the stored token equals the argument, succeed
and leave the key alone; otherwise try SET NX PX, which succeeds exactly
when no live value exists; otherwise fail. Returns the script result and
the key state after the call. -/
def lua_acquire_lock (s : LockState) (tok : String) (ttl now : Nat) : Bool × LockState :=
  match lock_live s now with
  | some t => if t = tok then (true, s) else (false, s)
  | none => (true, some (tok, now + ttl))

/-- CircuitState as stored in Redis: the failure counter key (count and
expiry) and the OPEN marker key (expiry). -/
structure CBState where
  failCount : Option (Nat × Nat)
  openUntil : Option Nat
deriving DecidableEq, Repr

/-- The clean state: neither key exists. -/
def cleanCB : CBState := ⟨none, none⟩

/-- Live value of the failure counter at instant now. -/
def live_fails (cb : CBState) (now : Nat) : Option (Nat × Nat) :=
  match cb.failCount with
  | some (c, e) => if now < e then some (c, e) else none
  | none => none

/-- LUA_CIRCUIT_BREAKER_FAIL: INCR the counter (restarting at 1 when the
key is absent or expired, in which case EXPIRE arms a fresh window); when
the count reaches the threshold, SET the OPEN marker with the cooldown
expiry. -/
def record_failure (cb : CBState) (cooldown threshold now : Nat) : CBState :=
  match live_fails cb now with
  | none =>
    if threshold ≤ 1 then ⟨some (1, now + cooldown), some (now + cooldown)⟩
    else ⟨some (1, now + cooldown), cb.openUntil⟩
  | some (c, e) =>
    if threshold ≤ c + 1 then ⟨some (c + 1, e), some (now + cooldown)⟩
    else ⟨some (c + 1, e), cb.openUntil⟩

/-- record_success: pipelined DELETE of both keys. -/
def record_success (_cb : CBState) : CBState := cleanCB

/-- is_open: EXISTS on the OPEN marker key. -/
def is_open (cb : CBState) (now : Nat) : Bool :=
  match cb.openUntil with
  | some e => now < e
  | none => false

/-- n consecutive record_failure calls, all inside one expiry window
(modelled as a shared instant now, matching "no intervening expiry"). -/
def failN (cb : CBState) (cooldown threshold now : Nat) : Nat → CBState
  | 0 => cb
  | n + 1 => record_failure (failN cb cooldown threshold now n) cooldown threshold now

/-- The externally visible effects of force_new_identity that the spec
constrains: the distributed lock acquisition, the address-echo query to
the outside, and the Tor control-plane interaction. -/
inductive RotAction
  | lockAcquire
  | addrEcho
  | ctrlSignal
deriving DecidableEq, Repr

/-- Outcome of the Tor control-plane block (authenticate + NEWNYM). -/
inductive CtrlOutcome
  | success
  | authFailure
  | socketError
  | otherError
deriving DecidableEq, Repr

/-- The non-deterministic environment force_new_identity runs against:
whether the Lua lock acquisition succeeds, what the two address-echo
probes report (none models a failed probe, as in _get_current_exit_ip),
and how the control-plane block ends. -/
structure RotationEnv where
  acquired : Bool
  oldIp : Option String
  newIp : Option String
  ctrl : CtrlOutcome
deriving Repr

/-- Result of force_new_identity: the returned Bool, the I/O actions
performed in order, the circuit-breaker state after the call and the
last-rotation timestamp key after the call. -/
structure RotResult where
  ok : Bool
  actions : List RotAction
  cb : CBState
  lastRot : Option Nat
deriving DecidableEq, Repr

/-- force_new_identity of APT_TorIdentityOrchestrator.

Order of the source: circuit-breaker fast-fail; last-rotation cooldown
fast-path (returns True without rotating); Lua lock acquisition (returns
True delegating when it fails); optional strict pre-echo; control-plane
signal with failure classification feeding record_failure; on success the
last-rotation clock is set, record_success runs and, under strict
verification, a post-echo must differ from the pre-echo or the call
returns False. -/
def force_new_identity (cb : CBState) (cbCooldown cbThreshold : Nat)
    (now : Nat) (lastRot : Option Nat) (baseCooldown : Nat)
    (strict : Bool) (env : RotationEnv) : RotResult :=
  if is_open cb now then ⟨false, [], cb, lastRot⟩
  else if (match lastRot with
           | some t => decide (now - t < baseCooldown)
           | none => false) then ⟨true, [], cb, lastRot⟩
  else if !env.acquired then ⟨true, [RotAction.lockAcquire], cb, lastRot⟩
  else
    let preActs := [RotAction.lockAcquire] ++ (if strict then [RotAction.addrEcho] else [])
    match env.ctrl with
    | CtrlOutcome.authFailure =>
      ⟨false, preActs ++ [RotAction.ctrlSignal],
        record_failure cb cbCooldown cbThreshold now, lastRot⟩
    | CtrlOutcome.socketError =>
      ⟨false, preActs ++ [RotAction.ctrlSignal],
        record_failure cb cbCooldown cbThreshold now, lastRot⟩
    | CtrlOutcome.otherError =>
      ⟨false, preActs ++ [RotAction.ctrlSignal],
        record_failure cb cbCooldown cbThreshold now, lastRot⟩
    | CtrlOutcome.success =>
      let cb' := record_success cb
      if strict then
        let acts := preActs ++ [RotAction.ctrlSignal, RotAction.addrEcho]
        if env.newIp == env.oldIp && !(env.oldIp == some "UNKNOWN") then
          ⟨false, acts, cb', some now⟩
        else ⟨true, acts, cb', some now⟩
      else ⟨true, preActs ++ [RotAction.ctrlSignal], cb', some now⟩

/-! ### discovery_engine.py — OSMDiscoveryEngine racing resolver

A source reply is either a raised exception (modelled as Except.error)
or an HTTP response with a status, an optional remark field and an
optional elements field. Elements are kept abstract as Nat identifiers.
The as_completed loop is modelled over the list of task outcomes in
completion order. -/

/-- The parsed JSON body of an Overpass reply, restricted to the fields
_fetch_single_node reads. -/
structure OverpassResponse where
  status : Nat
  remark : Option String
  elements : Option (List Nat)
deriving DecidableEq, Repr

/-- _fetch_single_node: a transport error propagates; raise_for_status
throws on status >= 400; a remark containing "runtime error" (lowercase
comparison) throws the crash-protection exception; otherwise the element
list (defaulting to empty when absent) is returned with the endpoint. -/
def fetch_single_node (endpoint : String) (resp : Except String OverpassResponse) :
    Except String (String × List Nat) :=
  match resp with
  | Except.error e => Except.error e
  | Except.ok r =>
    if 400 ≤ r.status then Except.error "HTTPStatusError"
    else
      match r.remark with
      | some rm =>
        if strContains (lowerStr rm) "runtime error" then
          Except.error ("Overpass DB Crash: " ++ rm)
        else Except.ok (endpoint, r.elements.getD [])
      | none => Except.ok (endpoint, r.elements.getD [])

/-- The value returned by _race_endpoints_async given the task outcomes
in completion order: the first outcome that is not an exception wins and
its element list is returned as-is; exceptions are logged and skipped;
if every task failed the exhaustion exception is raised. -/
def race_endpoints_async : List (Except String (String × List Nat)) →
    Except String (List Nat)
  | [] => Except.error "Todos los satelites del enjambre fallaron simultaneamente"
  | Except.ok (_, elements) :: _ => Except.ok elements
  | Except.error _ :: rest => race_endpoints_async rest

/-- Lifecycle phase of one racer task. -/
inductive TaskPhase
  | running
  | completed
  | cancelRequested
  | finishedCancelled
deriving DecidableEq, Repr

/-- The cancel loop of the winner branch: `for t in tasks: if not
t.done(): t.cancel()`. -/
def cancel_not_done (ps : List TaskPhase) : List TaskPhase :=
  ps.map (fun p => if p = TaskPhase.running then TaskPhase.cancelRequested else p)

/-- `await asyncio.gather(*tasks, return_exceptions=True)`: every task
with a pending cancellation is awaited to its cancelled completion. -/
def gather_tasks (ps : List TaskPhase) : List TaskPhase :=
  ps.map (fun p => if p = TaskPhase.cancelRequested then TaskPhase.finishedCancelled else p)

/-- The as_completed loop of _race_endpoints_async with task phases made
explicit. done holds the phases of the tasks already delivered by
as_completed (each one completed, whether it returned or raised); on a
winner the remaining tasks are still running and the winner branch runs
cancel_not_done followed by gather_tasks over all tasks before
returning. -/
def race_exec : List (Except String (String × List Nat)) → List TaskPhase →
    Except String (List Nat) × List TaskPhase
  | [], done => (Except.error "Todos los satelites del enjambre fallaron simultaneamente", done)
  | Except.error _ :: rest, done => race_exec rest (done ++ [TaskPhase.completed])
  | Except.ok (_, els) :: rest, done =>
    let phases := done ++ [TaskPhase.completed] ++ rest.map (fun _ => TaskPhase.running)
    (Except.ok els, gather_tasks (cancel_not_done phases))

/-- _race_endpoints_async started with all tasks pending. -/
def race_run (outcomes : List (Except String (String × List Nat))) :
    Except String (List Nat) × List TaskPhase :=
  race_exec outcomes []

/-! ### recon_engine.py — B2BReconEngine -/

/-- Outcome of one iteration of the navigation loop of
_navigate_with_stealth: a page.goto that returned (with the optional
HTTP status and whether the body carries a block marker), a Playwright
timeout, or any other exception. -/
inductive NavAttempt
  | response (status : Option Nat) (blockedMarker : Bool)
  | timeout
  | netError
deriving DecidableEq, Repr

/-- The blocking test of the source: response is not None and its status
is 403 or 429, or a block indicator was found in the content. -/
def nav_blocked : NavAttempt → Bool
  | NavAttempt.response st blocked =>
    (st == some 403) || (st == some 429) || blocked
  | _ => false

/-- Does this attempt outcome make the loop run another iteration? A
blocking response rotates identity and continues; a non-Playwright
exception rotates and continues; a timeout does not continue. -/
def nav_continues : NavAttempt → Bool
  | NavAttempt.response st blocked => nav_blocked (NavAttempt.response st blocked)
  | NavAttempt.timeout => false
  | NavAttempt.netError => true

/-- The retry loop body of _navigate_with_stealth over the attempt
outcomes in order: a blocked response continues, a clean response
returns True, a PlaywrightTimeoutError returns True immediately (the
incomplete DOM is kept for extraction), any other exception continues;
an exhausted list is the exhausted range loop, returning False. -/
def navigate_go : List NavAttempt → Bool
  | [] => false
  | NavAttempt.response st blocked :: rest =>
    if nav_blocked (NavAttempt.response st blocked) then navigate_go rest else true
  | NavAttempt.timeout :: _ => true
  | NavAttempt.netError :: rest => navigate_go rest

/-- _navigate_with_stealth: at most MAX_RETRIES iterations of the loop
body, each consuming one attempt outcome. -/
def navigate_with_stealth (attempts : List NavAttempt) (maxRetries : Nat) : Bool :=
  navigate_go (attempts.take maxRetries)

/-- The topical keyword set of _extract_deep_links. -/
def DEEP_KEYWORDS : List String := [
  "contacto", "contact", "nosotros", "staff", "directorio", "equipo",
  "portal", "ingreso", "admision", "admissions", "about", "quienes-somos",
  "trabaja-con-nosotros", "empleos", "vacantes", "transparencia",
  "gobernanza", "acreditaciones", "certificaciones", "matriculas",
  "campus", "instalaciones"]

/-- Set insertion preserving first-seen order; models accumulation into
the Python set discovery_pool (the claims below depend only on
membership and cardinality, which every iteration order preserves). -/
def insertUnique (acc : List String) (x : String) : List String :=
  if acc.contains x then acc else acc ++ [x]

/-- Directory of a path for relative reference resolution: everything up
to and including the last slash, or the root when the path has none. -/
def dirOf (p : String) : String :=
  let rev := p.data.reverse.dropWhile (fun c => c ≠ '/')
  if rev.isEmpty then "/" else ⟨rev.reverse⟩

/-- urllib.parse.urljoin for the reference shapes the crawler meets:
absolute references pass through, root-relative references replace the
path, and plain relative references resolve against the directory of the
base path. -/
def urljoin (base href : String) : String :=
  if strContains href "://" then href
  else
    let b := urlparse base
    if sStartsWith href "/" then b.scheme ++ "://" ++ b.netloc ++ href
    else b.scheme ++ "://" ++ b.netloc ++ dirOf b.path ++ href

/-- _extract_deep_links with the DOM reads supplied as parameters: the
href attributes of the a[href] selector, then of the dropdown-menu
selector. Anchor hrefs skip the javascript/mailto/tel/fragment schemes,
must land on the base domain and must mention a topical keyword;
dropdown hrefs only need the domain. The pooled set is cut to the
deep-scan limit. -/
def extract_deep_links (anchorHrefs dropdownHrefs : List String)
    (baseUrl : String) (deepScanLimit : Nat) : List String :=
  let domain := (urlparse baseUrl).netloc
  let pool1 := anchorHrefs.foldl (fun acc href =>
    if href = "" || sStartsWith href "javascript:" || sStartsWith href "mailto:" ||
        sStartsWith href "tel:" || sStartsWith href "#" then acc
    else
      let fullUrl := urljoin baseUrl href
      if (urlparse fullUrl).netloc = domain &&
          DEEP_KEYWORDS.any (fun k => strContains (lowerStr fullUrl) k) then
        insertUnique acc fullUrl
      else acc) []
  let pool2 := dropdownHrefs.foldl (fun acc href =>
    if href = "" then acc
    else
      let fullUrl := urljoin baseUrl href
      if (urlparse fullUrl).netloc = domain then insertUnique acc fullUrl else acc) pool1
  pool2.take deepScanLimit

/-- The master_contacts accumulator of scan_target. -/
structure ContactSets where
  phones : List String
  whatsapp : List String
  emails : List String
  addresses : List String
  googleMapsLinks : List String
deriving DecidableEq, Repr

/-- The empty accumulator scan_target starts from. -/
def emptyContacts : ContactSets := ⟨[], [], [], [], []⟩

/-- Set union keeping first-seen order, modelling set.update. -/
def mergeUnique (a b : List String) : List String := b.foldl insertUnique a

/-- The per-key merge `master_contacts[k].update(sub_contacts[k])`. -/
def merge_contacts (m c : ContactSets) : ContactSets :=
  ⟨mergeUnique m.phones c.phones, mergeUnique m.whatsapp c.whatsapp,
   mergeUnique m.emails c.emails, mergeUnique m.addresses c.addresses,
   mergeUnique m.googleMapsLinks c.googleMapsLinks⟩

/-- The deep-link visiting loop of scan_target over the links returned
by _extract_deep_links: every link is navigated (one page visit); when
the resilient navigation reports success the page contacts are merged;
failures are swallowed. Returns the merged contacts and the number of
deep pages visited beyond the landing page. -/
def scan_target_deep_loop (links : List String) (nav : String → Bool)
    (extractContacts : String → ContactSets) (master : ContactSets) :
    ContactSets × Nat :=
  links.foldl (fun acc link =>
    if nav link then (merge_contacts acc.1 (extractContacts link), acc.2 + 1)
    else (acc.1, acc.2 + 1)) (master, 0)

/-! ## Theorems -/

/-- C2: for the lease-mutex acquire script, a caller holding the live
lease re-enters successfully with its own token, and while the lease a
first caller obtained is still live, a second acquire with a different
token fails. -/
theorem lua_acquire_lock_spec (s : LockState) (t1 t2 : String)
    (ttl1 ttl2 now1 now2 : Nat) (hne : t1 ≠ t2) :
    (lock_live s now1 = some t1 → (lua_acquire_lock s t1 ttl1 now1).1 = true) ∧
    ((lua_acquire_lock s t1 ttl1 now1).1 = true →
      lock_live (lua_acquire_lock s t1 ttl1 now1).2 now2 ≠ none →
      (lua_acquire_lock (lua_acquire_lock s t1 ttl1 now1).2 t2 ttl2 now2).1 = false) := by
  constructor
  · intro h
    simp [lua_acquire_lock, h]
  · intro h1 hlive
    cases hll : lock_live s now1 with
    | some t =>
      by_cases ht : t = t1
      · subst ht
        have hstate : (lua_acquire_lock s t ttl1 now1).2 = s := by
          simp [lua_acquire_lock, hll]
        rw [hstate] at hlive ⊢
        obtain ⟨p, hp⟩ : ∃ p, s = some p := by
          cases s with
          | none => simp [lock_live] at hll
          | some p => exact ⟨p, rfl⟩
        obtain ⟨tk, e⟩ := p
        subst hp
        have htk : tk = t := by
          simp only [lock_live] at hll
          split at hll
          · exact Option.some.inj hll
          · exact absurd hll (by simp)
        subst htk
        have hlt2 : now2 < e := by
          by_contra hge
          simp [lock_live, hge] at hlive
        simp [lua_acquire_lock, lock_live, if_pos hlt2, hne]
      · exfalso
        simp [lua_acquire_lock, hll, ht] at h1
    | none =>
      have hstate : (lua_acquire_lock s t1 ttl1 now1).2 = some (t1, now1 + ttl1) := by
        simp [lua_acquire_lock, hll]
      rw [hstate] at hlive ⊢
      have hlt2 : now2 < now1 + ttl1 := by
        by_contra hge
        simp [lock_live, hge] at hlive
      simp [lua_acquire_lock, lock_live, if_pos hlt2, hne]

/-- C2 witness: the concrete behaviour at a held lease with ttl 8,
token "a", second caller "b" one instant later. -/
theorem lua_acquire_lock_spec_witness :
    (lua_acquire_lock (none : LockState) "a" 8 0).1 = true ∧
    (lua_acquire_lock (lua_acquire_lock (none : LockState) "a" 8 0).2 "b" 8 1).1 = false := by
  have h := lua_acquire_lock_spec (none : LockState) "a" "b" 8 8 0 1 (by decide)
  refine ⟨by decide, h.2 (by decide) (by decide)⟩

/-- Closed form of n consecutive failures from the clean state inside
one window: the counter holds n, and the OPEN marker exists exactly once
the threshold is reached. -/
theorem failN_closed_form (c t now : Nat) (hc : 0 < c) (ht : 1 ≤ t) :
    ∀ n, failN cleanCB c t now n =
      ⟨if n = 0 then none else some (n, now + c),
       if t ≤ n then some (now + c) else none⟩ := by
  intro n
  induction n with
  | zero =>
    have h0 : ¬ (t ≤ 0) := by omega
    simp [failN, cleanCB, h0]
  | succ n ih =>
    show record_failure (failN cleanCB c t now n) c t now = _
    rw [ih]
    by_cases hn : n = 0
    · subst hn
      have h0 : ¬ (t ≤ 0) := by omega
      simp only [if_pos rfl, if_neg h0]
      unfold record_failure live_fails
      by_cases h1 : t ≤ 1 <;> simp [h1]
    · have hlt : now < now + c := by omega
      simp only [if_neg hn]
      unfold record_failure live_fails
      simp only [if_pos hlt]
      by_cases hts : t ≤ n + 1
      · simp [hts]
      · have htn : ¬ (t ≤ n) := by omega
        simp [hts, htn]

/-- C3: from the clean state, with threshold at least 1 and a positive
cooldown, the breaker reports closed before the threshold-th consecutive
recorded failure, reports open right at the threshold-th, and a single
record_success returns the store to the clean state: the failure counter
key is gone (counter zero) and the OPEN marker is cleared. -/
theorem circuit_breaker_threshold_behaviour (cooldown threshold now : Nat)
    (hc : 0 < cooldown) (ht : 1 ≤ threshold) :
    (∀ n, n < threshold → is_open (failN cleanCB cooldown threshold now n) now = false) ∧
    is_open (failN cleanCB cooldown threshold now threshold) now = true ∧
    (∀ n, record_success (failN cleanCB cooldown threshold now n) = cleanCB ∧
      (record_success (failN cleanCB cooldown threshold now n)).failCount = none ∧
      is_open (record_success (failN cleanCB cooldown threshold now n)) now = false) := by
  refine ⟨?_, ?_, ?_⟩
  · intro n hn
    rw [failN_closed_form cooldown threshold now hc ht n]
    have : ¬ (threshold ≤ n) := by omega
    simp [is_open, this]
  · rw [failN_closed_form cooldown threshold now hc ht threshold]
    have hle : threshold ≤ threshold := le_refl _
    have hlt : now < now + cooldown := by omega
    simp [is_open, hle, hlt]
  · intro n
    exact ⟨rfl, rfl, rfl⟩

/-- C3 witness: default threshold 3 and cooldown 45 at instant 0 — two
failures leave the breaker closed, the third opens it, and a success
resets. -/
theorem circuit_breaker_threshold_behaviour_witness :
    (0 : Nat) < 45 ∧ (1 : Nat) ≤ 3 ∧
    is_open (failN cleanCB 45 3 0 2) 0 = false ∧
    is_open (failN cleanCB 45 3 0 3) 0 = true ∧
    record_success (failN cleanCB 45 3 0 3) = cleanCB := by
  have h := circuit_breaker_threshold_behaviour 45 3 0 (by decide) (by decide)
  exact ⟨by decide, by decide, h.1 2 (by decide), h.2.1, (h.2.2 3).1⟩

/-- C6: whenever the distributed circuit breaker reports OPEN, a call to
force_new_identity returns False immediately, with no lock acquisition,
no address-echo query and no control-plane signal, and without touching
the breaker or the rotation clock. -/
theorem force_new_identity_fail_fast (cb : CBState) (cbCooldown cbThreshold now : Nat)
    (lastRot : Option Nat) (baseCooldown : Nat) (strict : Bool) (env : RotationEnv)
    (h : is_open cb now = true) :
    force_new_identity cb cbCooldown cbThreshold now lastRot baseCooldown strict env =
      ⟨false, [], cb, lastRot⟩ := by
  simp [force_new_identity, h]

/-- C6 witness: a breaker whose OPEN marker is live at instant 0 makes
the rotation call return immediately even though the environment would
let every later step succeed. -/
theorem force_new_identity_fail_fast_witness :
    is_open ⟨none, some 10⟩ 0 = true ∧
    force_new_identity ⟨none, some 10⟩ 45 3 0 none 12 true
      ⟨true, some "1.2.3.4", some "5.6.7.8", CtrlOutcome.success⟩ =
      ⟨false, [], ⟨none, some 10⟩, none⟩ :=
  ⟨by decide,
   force_new_identity_fail_fast ⟨none, some 10⟩ 45 3 0 none 12 true
     ⟨true, some "1.2.3.4", some "5.6.7.8", CtrlOutcome.success⟩ (by decide)⟩

/-- C4 counterexample: a first-completing source that returns a
well-formed, corruption-free response whose element list is empty is
accepted as the winner of the race; the race does not continue to the
second source, whose non-empty payload is discarded. -/
theorem race_accepts_empty_winner_cex :
    fetch_single_node "https://overpass-api.de/api/interpreter"
      (Except.ok ⟨200, none, some []⟩) =
      Except.ok ("https://overpass-api.de/api/interpreter", []) ∧
    race_endpoints_async
      [Except.ok ("https://overpass-api.de/api/interpreter", []),
       Except.ok ("https://lz4.overpass-api.de/api/interpreter", [1])] =
      Except.ok [] ∧
    race_endpoints_async
      [Except.ok ("https://overpass-api.de/api/interpreter", []),
       Except.ok ("https://lz4.overpass-api.de/api/interpreter", [1])] ≠
      Except.ok [1] := by
  refine ⟨rfl, rfl, ?_⟩
  intro h
  have h1 : ([] : List Nat) = [1] := Except.ok.inj h
  exact List.noConfusion h1

/-- C4 amended: the first task outcome that is not an exception wins the
race and its element list is returned as-is, empty or not; raised
outcomes — transport errors, HTTP error statuses, and responses
self-reporting corruption through a "runtime error" remark, which
_fetch_single_node converts into exceptions — are skipped and the race
continues among the remaining sources. -/
theorem race_endpoints_async_spec (ep msg rm : String) (es : List Nat)
    (rest : List (Except String (String × List Nat)))
    (st : Nat) (els : Option (List Nat))
    (hst : st < 400)
    (hrm : strContains (lowerStr rm) "runtime error" = true) :
    race_endpoints_async (Except.ok (ep, es) :: rest) = Except.ok es ∧
    race_endpoints_async (Except.error msg :: rest) = race_endpoints_async rest ∧
    fetch_single_node ep (Except.ok ⟨st, some rm, els⟩) =
      Except.error ("Overpass DB Crash: " ++ rm) := by
  refine ⟨rfl, rfl, ?_⟩
  have hnle : ¬ (400 ≤ st) := by omega
  simp [fetch_single_node, hnle, hrm]

/-- C4 amended witness: concrete corrupted response skipped, concrete
empty-but-healthy winner returned. -/
theorem race_endpoints_async_spec_witness :
    (200 : Nat) < 400 ∧
    strContains (lowerStr "runtime error: Query timed out") "runtime error" = true ∧
    race_endpoints_async
      [Except.ok ("https://overpass-api.de/api/interpreter", ([] : List Nat))] =
      Except.ok [] ∧
    fetch_single_node "https://overpass.kumi.systems/api/interpreter"
      (Except.ok ⟨200, some "runtime error: Query timed out", some [7]⟩) =
      Except.error ("Overpass DB Crash: " ++ "runtime error: Query timed out") := by
  have h := race_endpoints_async_spec "https://overpass.kumi.systems/api/interpreter"
    "boom" "runtime error: Query timed out" ([] : List Nat) [] 200 (some [7])
    (by decide) (by decide)
  exact ⟨by decide, by decide, h.1, h.2.2⟩

/-- Invariant-carrying form of the race executor: assuming every already
delivered task is completed, the executor returns the same value as the
plain race, accounts for every task, and leaves every task either
completed or cancelled-and-awaited. -/
theorem race_exec_spec (outcomes : List (Except String (String × List Nat))) :
    ∀ done : List TaskPhase, (∀ p ∈ done, p = TaskPhase.completed) →
      (race_exec outcomes done).1 = race_endpoints_async outcomes ∧
      ((race_exec outcomes done).2).length = done.length + outcomes.length ∧
      ∀ p ∈ (race_exec outcomes done).2,
        p = TaskPhase.completed ∨ p = TaskPhase.finishedCancelled := by
  induction outcomes with
  | nil =>
    intro done hdone
    exact ⟨rfl, by simp [race_exec], fun p hp => Or.inl (hdone p hp)⟩
  | cons o rest ih =>
    intro done hdone
    cases o with
    | error e =>
      have hdone2 : ∀ p ∈ done ++ [TaskPhase.completed], p = TaskPhase.completed := by
        intro p hp
        rcases List.mem_append.mp hp with h | h
        · exact hdone p h
        · simpa using h
      obtain ⟨ha, hb, hc⟩ := ih (done ++ [TaskPhase.completed]) hdone2
      have hstep : race_exec (Except.error e :: rest) done =
          race_exec rest (done ++ [TaskPhase.completed]) := rfl
      rw [hstep]
      refine ⟨ha, ?_, hc⟩
      rw [hb]
      simp
      omega
    | ok w =>
      obtain ⟨ep, els⟩ := w
      refine ⟨rfl, ?_, ?_⟩
      · simp [race_exec, gather_tasks, cancel_not_done]
      · intro p hp
        simp only [race_exec, gather_tasks, cancel_not_done, List.map_map] at hp
        rcases List.mem_map.mp hp with ⟨q, hq, hfq⟩
        rcases List.mem_append.mp hq with hq1 | hq2
        · rcases List.mem_append.mp hq1 with hq3 | hq4
          · have : q = TaskPhase.completed := hdone q hq3
            subst this
            subst hfq
            simp
          · have : q = TaskPhase.completed := by simpa using hq4
            subst this
            subst hfq
            simp
        · rcases List.mem_map.mp hq2 with ⟨_, _, hrun⟩
          subst hrun
          subst hfq
          simp

/-- C5: whichever task wins the race (equivalently, for every sequence
of task outcomes in completion order), when _race_endpoints_async
returns, every racer task has reached a final phase — it either ran to
completion before the decision or was cancelled and awaited via the
gather in the winner branch; no task is still running or merely
cancel-requested, and the returned value agrees with the plain race
semantics. -/
theorem race_run_no_task_left_running
    (outcomes : List (Except String (String × List Nat))) :
    (race_run outcomes).1 = race_endpoints_async outcomes ∧
    ((race_run outcomes).2).length = outcomes.length ∧
    ∀ p ∈ (race_run outcomes).2,
      p = TaskPhase.completed ∨ p = TaskPhase.finishedCancelled := by
  obtain ⟨ha, hb, hc⟩ := race_exec_spec outcomes [] (by intro p hp; simp at hp)
  exact ⟨ha, by simpa using hb, hc⟩

/-- C5 witness: a race in which the second source wins — the loser that
completed first is completed, the two abandoned racers are cancelled and
awaited, nothing is left running. -/
theorem race_run_no_task_left_running_witness :
    (race_run [Except.error "timeout",
      Except.ok ("https://lz4.overpass-api.de/api/interpreter", [4]),
      Except.error "late", Except.error "later"]).2 =
      [TaskPhase.completed, TaskPhase.completed,
       TaskPhase.finishedCancelled, TaskPhase.finishedCancelled] ∧
    (TaskPhase.finishedCancelled = TaskPhase.completed ∨
      TaskPhase.finishedCancelled = TaskPhase.finishedCancelled) := by
  refine ⟨by decide, ?_⟩
  exact (race_run_no_task_left_running [Except.error "timeout",
    Except.ok ("https://lz4.overpass-api.de/api/interpreter", [4]),
    Except.error "late", Except.error "later"]).2.2
    TaskPhase.finishedCancelled (by decide)

/-- A fold whose step increments the counter component on every element
adds the list length to the counter. -/
theorem foldl_snd_succ {α β : Type} (f : β × Nat → α → β × Nat)
    (hf : ∀ acc x, (f acc x).2 = acc.2 + 1) :
    ∀ (l : List α) (acc : β × Nat), (l.foldl f acc).2 = acc.2 + l.length := by
  intro l
  induction l with
  | nil => intro acc; simp
  | cons x xs ih =>
    intro acc
    rw [List.foldl_cons, ih (f acc x), hf acc x]
    simp
    omega

/-- The deep-link visiting loop performs one page visit per link. -/
theorem scan_target_deep_loop_count (links : List String) (nav : String → Bool)
    (ex : String → ContactSets) (m : ContactSets) :
    (scan_target_deep_loop links nav ex m).2 = links.length := by
  unfold scan_target_deep_loop
  rw [foldl_snd_succ _ (by
    intro acc x
    by_cases h : nav x <;> simp [h]) links (m, 0)]
  simp

/-- C7: the deep-link crawl is bounded by the configured limit —
_extract_deep_links returns at most deepScanLimit links, the visiting
loop of scan_target visits exactly the returned links (so at most
deepScanLimit internal pages beyond the landing page), and in the
concrete scenario of three keyword-matching internal links with the
limit configured to 2, exactly 2 links survive and exactly 2 pages are
visited. -/
theorem deep_scan_limit_respected :
    (∀ (anchors dropdowns : List String) (baseUrl : String) (limit : Nat),
      (extract_deep_links anchors dropdowns baseUrl limit).length ≤ limit) ∧
    (∀ (anchors dropdowns : List String) (baseUrl : String) (limit : Nat)
        (nav : String → Bool) (ex : String → ContactSets) (m : ContactSets),
      (scan_target_deep_loop (extract_deep_links anchors dropdowns baseUrl limit)
          nav ex m).2 =
        (extract_deep_links anchors dropdowns baseUrl limit).length) ∧
    (extract_deep_links
        ["https://acme.edu.co/contacto", "https://acme.edu.co/about",
         "https://acme.edu.co/admissions"] [] "https://acme.edu.co" 2).length = 2 ∧
    (scan_target_deep_loop
        (extract_deep_links
          ["https://acme.edu.co/contacto", "https://acme.edu.co/about",
           "https://acme.edu.co/admissions"] [] "https://acme.edu.co" 2)
        (fun _ => true) (fun _ => emptyContacts) emptyContacts).2 = 2 := by
  refine ⟨?_, ?_, by decide, by decide⟩
  · intro anchors dropdowns baseUrl limit
    unfold extract_deep_links
    calc _ ≤ _ := le_of_eq (List.length_take _ _)
    _ ≤ limit := min_le_left _ _
  · intro anchors dropdowns baseUrl limit nav ex m
    exact scan_target_deep_loop_count _ nav ex m

/-- C8 counterexample: with three discovered deep links each
contributing a fresh email, the sufficiency condition named by the spec
(at least two distinct emails) already holds after the second visit, yet
the loop visits all three pages — there is no early stop. -/
theorem scan_no_early_stop_cex :
    (scan_target_deep_loop
      ["https://acme.edu.co/contacto", "https://acme.edu.co/about",
       "https://acme.edu.co/admissions"]
      (fun _ => true)
      (fun link => ⟨[], [],
        [if link = "https://acme.edu.co/contacto" then "rector@acme.edu.co"
         else if link = "https://acme.edu.co/about" then "info@acme.edu.co"
         else "admissions@acme.edu.co"], [], []⟩)
      emptyContacts).2 = 3 ∧
    2 ≤ ((scan_target_deep_loop
      ["https://acme.edu.co/contacto", "https://acme.edu.co/about"]
      (fun _ => true)
      (fun link => ⟨[], [],
        [if link = "https://acme.edu.co/contacto" then "rector@acme.edu.co"
         else if link = "https://acme.edu.co/about" then "info@acme.edu.co"
         else "admissions@acme.edu.co"], [], []⟩)
      emptyContacts).1.emails).length := by
  refine ⟨by decide, by decide⟩

/-- C8 amended: the deep-link visiting loop of scan_target visits every
link returned by _extract_deep_links (hence the bound is only the
deep-scan limit applied when the links were extracted); it has no
sufficiency-based early stop — the visit count equals the link count for
every navigation oracle and every extracted contact data, including runs
in which two distinct emails are found early. -/
theorem scan_target_visits_every_deep_link (links : List String)
    (nav : String → Bool) (ex : String → ContactSets) (m : ContactSets) :
    (scan_target_deep_loop links nav ex m).2 = links.length :=
  scan_target_deep_loop_count links nav ex m

/-- All elements of the prefix make the navigation loop iterate again,
so a timeout reached after them returns True. -/
theorem navigate_go_append_timeout :
    ∀ (pre : List NavAttempt), (∀ a ∈ pre, nav_continues a = true) →
      ∀ l, navigate_go (pre ++ NavAttempt.timeout :: l) = true := by
  intro pre
  induction pre with
  | nil => intro _ l; rfl
  | cons a rest ih =>
    intro h l
    have ha : nav_continues a = true := h a (List.mem_cons_self a rest)
    have hrest : ∀ b ∈ rest, nav_continues b = true :=
      fun b hb => h b (List.mem_cons_of_mem a hb)
    cases a with
    | response st blocked =>
      have hb : nav_blocked (NavAttempt.response st blocked) = true := by
        simpa [nav_continues] using ha
      simp [navigate_go, hb, ih hrest l]
    | timeout => simp [nav_continues] at ha
    | netError => simp [navigate_go, ih hrest l]

/-- C9: in _navigate_with_stealth, when an attempt raises the Playwright
timeout — after any number of earlier attempts that continued the loop
(blocked responses or other exceptions), still within the retry budget —
the function returns True immediately: the timed-out navigation is
reported as a success and the partially rendered document is handed to
extraction, instead of being retried or surfaced as a failure. -/
theorem navigate_timeout_reported_success (pre rest : List NavAttempt)
    (maxRetries : Nat)
    (hpre : ∀ a ∈ pre, nav_continues a = true)
    (hlen : pre.length < maxRetries) :
    navigate_with_stealth (pre ++ NavAttempt.timeout :: rest) maxRetries = true := by
  unfold navigate_with_stealth
  rw [List.take_append_eq_append_take]
  have h1 : pre.take maxRetries = pre := List.take_of_length_le (le_of_lt hlen)
  obtain ⟨k, hk⟩ : ∃ k, maxRetries - pre.length = k + 1 :=
    ⟨maxRetries - pre.length - 1, by omega⟩
  rw [h1, hk, List.take_succ_cons]
  exact navigate_go_append_timeout pre hpre _

/-- C9 witness: one network error, then a timeout, inside the default
retry budget of 3 — navigation reports success. -/
theorem navigate_timeout_reported_success_witness :
    (∀ a ∈ [NavAttempt.netError], nav_continues a = true) ∧
    [NavAttempt.netError].length < 3 ∧
    navigate_with_stealth ([NavAttempt.netError] ++ NavAttempt.timeout :: []) 3 = true :=
  ⟨by decide, by decide,
   navigate_timeout_reported_success [NavAttempt.netError] [] 3 (by decide) (by decide)⟩

/-- The selection loop only ever returns the cleaned form of a candidate
from its input list whose score clears 45 and whose cleaned URL answered
the liveness probe. -/
theorem resolve_go_spec (liveness : String → Bool) (seen : List String) :
    ∀ (l : List (String × Int)) (w : String), resolve_go liveness seen l = some w →
      ∃ url score, (url, score) ∈ l ∧ 45 ≤ score ∧
        w = clean_url url ∧ liveness w = true := by
  intro l
  induction l with
  | nil => intro w h; exact absurd h (by simp [resolve_go])
  | cons p rest ih =>
    obtain ⟨url, score⟩ := p
    intro w h
    simp only [resolve_go] at h
    split at h
    · obtain ⟨u, sc, hmem, h45, hw, hlive⟩ := ih w h
      exact ⟨u, sc, List.mem_cons_of_mem _ hmem, h45, hw, hlive⟩
    · next hscore =>
      split at h
      · obtain ⟨u, sc, hmem, h45, hw, hlive⟩ := ih w h
        exact ⟨u, sc, List.mem_cons_of_mem _ hmem, h45, hw, hlive⟩
      · split at h
        · next hlv =>
          refine ⟨url, score, List.mem_cons_self _ _, by omega, ?_, ?_⟩
          · exact (Option.some.inj h).symm
          · rw [← Option.some.inj h]; exact hlv
        · obtain ⟨u, sc, hmem, h45, hw, hlive⟩ := ih w h
          exact ⟨u, sc, List.mem_cons_of_mem _ hmem, h45, hw, hlive⟩

/-- A winner of _resolve_node comes from a raw candidate of the search
results that survived _is_valid_candidate, scored at least 45 and whose
cleaned URL was live. -/
theorem resolve_node_some_spec (raws : List String) (instName city : String)
    (liveness : String → Bool) (seen : List String) (w : String)
    (h : resolve_node raws instName city liveness seen = some w) :
    ∃ raw, raw ∈ raws ∧ is_valid_candidate raw = true ∧
      (45 : Int) ≤ calculate_url_relevance raw instName city ∧
      w = clean_url raw ∧ liveness w = true := by
  obtain ⟨url, score, hmem, h45, hw, hlive⟩ := resolve_go_spec liveness seen _ w h
  rw [resolve_candidates, List.mem_insertionSort] at hmem
  obtain ⟨raw, hraw, heq⟩ := List.mem_map.mp hmem
  obtain ⟨hmemraw, hvalid⟩ := List.mem_filter.mp hraw
  obtain ⟨hu, hs⟩ := Prod.mk.injEq .. ▸ heq
  refine ⟨raw, hmemraw, hvalid, ?_, ?_, hlive⟩
  · rw [hs]; exact h45
  · rw [hw, hu]

/-- C1: _resolve_node returns either no URL or the cleaned form of a raw
candidate whose relevance score, as computed by _calculate_url_relevance
(Int-exact model of the float arithmetic), is at least the acceptance
threshold 45, and which passed the liveness check — never a
sub-threshold or non-live winner. -/
theorem resolve_node_winner_above_threshold (raws : List String)
    (instName city : String) (liveness : String → Bool) (seen : List String)
    (w : String) (h : resolve_node raws instName city liveness seen = some w) :
    ∃ raw, raw ∈ raws ∧ is_valid_candidate raw = true ∧
      (45 : Int) ≤ calculate_url_relevance raw instName city ∧
      w = clean_url raw ∧ liveness w = true :=
  resolve_node_some_spec raws instName city liveness seen w h

/-- C1 witness: a concrete resolution in which the root .edu.co domain
matching both name tokens wins with score 140 and a live probe. -/
theorem resolve_node_winner_above_threshold_witness :
    resolve_node ["https://acmeacademy.edu.co"] "Acme Academy" "Springfield"
      (fun _ => true) [] = some "https://acmeacademy.edu.co" ∧
    ∃ raw, raw ∈ ["https://acmeacademy.edu.co"] ∧ is_valid_candidate raw = true ∧
      (45 : Int) ≤ calculate_url_relevance raw "Acme Academy" "Springfield" ∧
      "https://acmeacademy.edu.co" = clean_url raw ∧
      (fun (_ : String) => true) "https://acmeacademy.edu.co" = true :=
  ⟨by decide,
   resolve_node_winner_above_threshold ["https://acmeacademy.edu.co"]
     "Acme Academy" "Springfield" (fun _ => true) [] "https://acmeacademy.edu.co"
     (by decide)⟩

/-- Candidates accepted by _is_valid_candidate are at most 120
characters long. -/
theorem valid_candidate_length_le (url : String)
    (h : is_valid_candidate url = true) : url.length ≤ 120 := by
  unfold is_valid_candidate at h
  split at h
  · exact absurd h (by simp)
  · split at h
    · exact absurd h (by simp)
    · split at h
      · exact absurd h (by simp)
      · exact of_decide_eq_true h

/-- C10: a raw candidate URL longer than 120 characters is rejected by
_is_valid_candidate, therefore never appears in the scored candidate
list of _resolve_node (so it is never scored and never probed for
liveness), and every winner _resolve_node does return is the cleaned
form of a validated raw candidate of length at most 120. -/
theorem long_url_never_candidate (url : String) (h : 120 < url.length) :
    is_valid_candidate url = false ∧
    (∀ (raws : List String) (instName city : String) (p : String × Int),
      p ∈ resolve_candidates raws instName city → p.1 ≠ url) ∧
    (∀ (raws : List String) (instName city : String) (liveness : String → Bool)
        (seen : List String) (w : String),
      resolve_node raws instName city liveness seen = some w →
      ∃ raw, raw ∈ raws ∧ is_valid_candidate raw = true ∧ raw.length ≤ 120 ∧
        w = clean_url raw) := by
  refine ⟨?_, ?_, ?_⟩
  · cases hv : is_valid_candidate url with
    | false => rfl
    | true => exact absurd (valid_candidate_length_le url hv) (by omega)
  · intro raws instName city p hp heq
    rw [resolve_candidates, List.mem_insertionSort] at hp
    obtain ⟨raw, hraw, hpe⟩ := List.mem_map.mp hp
    obtain ⟨_, hvalid⟩ := List.mem_filter.mp hraw
    have hraw1 : raw = p.1 := by rw [← hpe]
    rw [hraw1, heq] at hvalid
    exact absurd (valid_candidate_length_le url hvalid) (by omega)
  · intro raws instName city liveness seen w hw
    obtain ⟨raw, hmem, hvalid, _, hclean, _⟩ :=
      resolve_node_some_spec raws instName city liveness seen w hw
    exact ⟨raw, hmem, hvalid, valid_candidate_length_le raw hvalid, hclean⟩

/-- C10 witness: a 131-character URL on a healthy domain is rejected by
the validity filter purely for its length. -/
theorem long_url_never_candidate_witness :
    120 < ("https://" ++ String.mk (List.replicate 120 'a') ++ ".edu.co").length ∧
    is_valid_candidate ("https://" ++ String.mk (List.replicate 120 'a') ++ ".edu.co") = false :=
  ⟨by decide,
   (long_url_never_candidate ("https://" ++ String.mk (List.replicate 120 'a') ++ ".edu.co")
     (by decide)).1⟩

end LLSeller
